import Mathlib

/-!
Shallow embedding of NVDA's `source/logHandler.py` (logging subsystem):
severity levels, the exception classifier in `Logger.exception`, the level
policy (`isLogLevelForced` / `setLogLevelFromConfig`), the fragment tracker
(`Logger.markFragmentStart` / `Logger.getFragment`), the log-viewer
activation logic in `Logger._log`, the frame-to-codepath resolver
(`getCodePath`), the thread exception hook (`_threadExceptHook`) and the
file sink's audible alerts (`FileHandler.handle`, `shouldPlayErrorSound`).

Python machine integers are modelled as `Int`/`Nat`; Python's `&  0xFFFF`
on a (possibly negative, two's-complement) integer equals the nonnegative
remainder modulo 2 ^ 16, which Lean's `Int.emod` (`%`) computes.
-/

set_option autoImplicit false

/-! ## Severity levels (`class Logger`, lines 206-213, plus stdlib values) -/

namespace Logger

/-- Standard level, imported by `Logger` from the `logging` module. -/
def DEBUG : Nat := 10

/-- Standard level, imported by `Logger` from the `logging` module. -/
def INFO : Nat := 20

/-- Standard level, imported by `Logger` from the `logging` module. -/
def WARNING : Nat := 30

/-- Standard level, imported by `Logger` from the `logging` module. -/
def ERROR : Nat := 40

/-- Standard level, imported by `Logger` from the `logging` module. -/
def CRITICAL : Nat := 50

/-- Custom NVDA level; named `Logger.IO` in the source (`IO = 12`). -/
def IOlvl : Nat := 12

/-- Custom NVDA level (`DEBUGWARNING = 15`). -/
def DEBUGWARNING : Nat := 15

/-- Custom NVDA sentinel level (`OFF = 100`). -/
def OFF : Nat := 100

end Logger

/-- `logging.Logger.isEnabledFor(level)`: true when `level` is at or above
the effective threshold of the logger. -/
def isEnabledFor (threshold level : Nat) : Bool :=
  threshold ≤ level

/-! ## Error-code constants (lines 38-44, and the `RPCConstants` module) -/

def ERROR_INVALID_WINDOW_HANDLE : Int := 1400

def ERROR_TIMEOUT : Int := 1460

def EPT_S_NOT_REGISTERED : Int := 1753

def E_ACCESSDENIED : Int := -2147024891

def CO_E_OBJNOTCONNECTED : Int := -2147220995

def EVENT_E_ALL_SUBSCRIBERS_FAILED : Int := -2147220991

/-- Modelled from the spec: the repository's `RPCConstants.RPC` enum is not
under `src/`; the spec names this code "RPC-server-unavailable".  The value
is the standard Windows status code `RPC_S_SERVER_UNAVAILABLE`. -/
def RPC_S_SERVER_UNAVAILABLE : Int := 1722

/-- Modelled from the spec: the repository's `RPCConstants.RPC` enum is not
under `src/`; the source (line 304) references `RPC.S_CALL_FAILED_DNE`
("call failed, did not execute").  The value is the standard Windows status
code `RPC_S_CALL_FAILED_DNE`. -/
def RPC_S_CALL_FAILED_DNE : Int := 1727

/-- Modelled from the spec: "RPC-call-canceled"; standard Windows HRESULT
`RPC_E_CALL_CANCELED = 0x80010002` as a signed 32-bit value. -/
def RPC_E_CALL_CANCELED : Int := -2147418110

/-- Modelled from the spec: "call-rejected"; standard Windows HRESULT
`RPC_E_CALL_REJECTED = 0x80010001` as a signed 32-bit value. -/
def RPC_E_CALL_REJECTED : Int := -2147418111

/-- Modelled from the spec: "disconnected"; standard Windows HRESULT
`RPC_E_DISCONNECTED = 0x80010108` as a signed 32-bit value. -/
def RPC_E_DISCONNECTED : Int := -2147417848

/-! ## Exceptions and the classifier (`Logger.exception`, lines 282-332) -/

/-- The exception kinds `Logger.exception` distinguishes: a `WindowsError`
(`OSError`) carrying a `winerror` code, a `comtypes.COMError` carrying an
`hresult`, the application's `exceptions.CallCancelled`, and any other
exception type (identified only by name; the classifier ignores it). -/
inductive PyExc where
  | windowsError (winerror : Int)
  | comError (hresult : Int)
  | callCancelled
  | otherExc (name : String)
deriving DecidableEq

/-- The level chosen by `Logger.exception` for an exception (lines 296-328):
`DEBUGWARNING` for the benign allow-lists, `ERROR` otherwise. -/
def exceptionLevel (exc : PyExc) : Nat :=
  if (match exc with
      | PyExc.windowsError w =>
        [ERROR_INVALID_WINDOW_HANDLE,
         ERROR_TIMEOUT,
         RPC_S_SERVER_UNAVAILABLE,
         RPC_S_CALL_FAILED_DNE,
         EPT_S_NOT_REGISTERED,
         RPC_E_CALL_CANCELED].contains w
      | PyExc.comError h =>
        ([E_ACCESSDENIED,
          CO_E_OBJNOTCONNECTED,
          EVENT_E_ALL_SUBSCRIBERS_FAILED,
          RPC_E_CALL_REJECTED,
          RPC_E_CALL_CANCELED,
          RPC_E_DISCONNECTED].contains h
         || (h % 65536 == RPC_S_SERVER_UNAVAILABLE))
      | PyExc.callCancelled => true
      | PyExc.otherExc _ => false) then
    Logger.DEBUGWARNING
  else
    Logger.ERROR

/-- Spec-side predicate, following claim C1's words: a Windows error whose
code is one of invalid handle, operation timeout, RPC-server-unavailable,
RPC-endpoint-not-registered, RPC-call-canceled; or a COM error whose result
code is access denied, object not connected, all-subscribers-failed,
call-rejected, call-canceled or disconnected, or whose low 16 bits equal
the RPC-server-unavailable code; or the operation-cancelled exception. -/
def specBenignExceptionC1 (exc : PyExc) : Bool :=
  match exc with
  | PyExc.windowsError w =>
    [ERROR_INVALID_WINDOW_HANDLE,
     ERROR_TIMEOUT,
     RPC_S_SERVER_UNAVAILABLE,
     EPT_S_NOT_REGISTERED,
     RPC_E_CALL_CANCELED].contains w
  | PyExc.comError h =>
    ([E_ACCESSDENIED,
      CO_E_OBJNOTCONNECTED,
      EVENT_E_ALL_SUBSCRIBERS_FAILED,
      RPC_E_CALL_REJECTED,
      RPC_E_CALL_CANCELED,
      RPC_E_DISCONNECTED].contains h
     || (h % 65536 == RPC_S_SERVER_UNAVAILABLE))
  | PyExc.callCancelled => true
  | PyExc.otherExc _ => false

/-- Spec-side predicate amended as the code forces: the Windows-error
allow-list additionally contains the RPC "call failed, did not execute"
code (`RPC.S_CALL_FAILED_DNE`, source line 304). -/
def specBenignExceptionAmended (exc : PyExc) : Bool :=
  match exc with
  | PyExc.windowsError w =>
    [ERROR_INVALID_WINDOW_HANDLE,
     ERROR_TIMEOUT,
     RPC_S_SERVER_UNAVAILABLE,
     RPC_S_CALL_FAILED_DNE,
     EPT_S_NOT_REGISTERED,
     RPC_E_CALL_CANCELED].contains w
  | PyExc.comError h =>
    ([E_ACCESSDENIED,
      CO_E_OBJNOTCONNECTED,
      EVENT_E_ALL_SUBSCRIBERS_FAILED,
      RPC_E_CALL_REJECTED,
      RPC_E_CALL_CANCELED,
      RPC_E_DISCONNECTED].contains h
     || (h % 65536 == RPC_S_SERVER_UNAVAILABLE))
  | PyExc.callCancelled => true
  | PyExc.otherExc _ => false

/-! ## Command-line arguments and level policy (lines 625-650) -/

/-- The fields of `globalVars.appArgs` used by this module.  `logLevel` is
the numeric `--log-level` command-line value (0 when not given);
`logFileName` is falsy in Python when `None` or empty. -/
structure AppArgs where
  secure : Bool
  debugLogging : Bool
  logLevel : Int
  noLogging : Bool
  logFileName : Option String
deriving DecidableEq

/-- Python truthiness of an optional string (`not x`). -/
def strOptFalsy : Option String → Bool
  | none => true
  | some s => s.isEmpty

/-- `isLogLevelForced` (lines 625-632). -/
def isLogLevelForced (a : AppArgs) : Bool :=
  a.secure || a.debugLogging || a.logLevel != 0 || a.noLogging

/-- The mutable logging state touched by `setLogLevelFromConfig`: the root
logger's effective level, the persisted `general.loggingLevel` config
string, and whether `log.warning` has been emitted. -/
structure LogState where
  rootLevel : Nat
  configLoggingLevel : String
  warned : Bool
deriving DecidableEq

/-- `logging.getLevelName` applied to a level *name*: the numeric level for
a registered name, none otherwise (Python returns the string
`Level <name>`, which then fails the integer membership test exactly as
`none` does here).  `DEBUGWARNING`, `OFF` and the custom input/output level
are registered by `initialize` via `logging.addLevelName`. -/
def getLevelNum (name : String) : Option Nat :=
  if name = "CRITICAL" then some 50
  else if name = "FATAL" then some 50
  else if name = "ERROR" then some 40
  else if name = "WARN" then some 30
  else if name = "WARNING" then some 30
  else if name = "INFO" then some 20
  else if name = "DEBUG" then some 10
  else if name = "NOTSET" then some 0
  else if name = "DEBUGWARNING" then some 15
  else if name = "IO" then some 12
  else if name = "OFF" then some 100
  else none

/-- `setLogLevelFromConfig` (lines 635-650).  When the level is forced the
call returns immediately; otherwise the configured name is resolved and
validated against the tuple `(DEBUG, IO, DEBUGWARNING, INFO, OFF)`; an
invalid name logs a warning, resets to INFO and rewrites the config. -/
def setLogLevelFromConfig (a : AppArgs) (s : LogState) : LogState :=
  if isLogLevelForced a then s
  else
    match getLevelNum s.configLoggingLevel with
    | some level =>
      if [Logger.DEBUG, Logger.IOlvl, Logger.DEBUGWARNING,
          Logger.INFO, Logger.OFF].contains level then
        { s with rootLevel := level }
      else
        { s with warned := true,
                 rootLevel := Logger.INFO,
                 configLoggingLevel := "INFO" }
    | none =>
      { s with warned := true,
               rootLevel := Logger.INFO,
               configLoggingLevel := "INFO" }

/-- The level names a configuration may legally hold, per the spec. -/
def allowedConfigNames : List String :=
  ["IO", "DEBUG", "DEBUGWARNING", "INFO", "OFF"]

/-! ## Fragment tracker (`markFragmentStart` / `getFragment`, lines 334-372)
and viewer activation (`Logger._log`, lines 241-253) -/

/-- What the module-level `logHandler` singleton currently is
(`isinstance(logHandler, FileHandler)` is the check that matters). -/
inductive HandlerKind where
  | fileH
  | nullH
  | remoteH
  | noneH
deriving DecidableEq

/-- The `Logger` instance state used by the fragment tracker. -/
structure LoggerState where
  fragmentStart : Option Nat
deriving DecidableEq

/-- `Logger.markFragmentStart` (lines 334-350).  The log file's contents
are modelled as a list of characters; `f.seek(0, 2); f.tell()` yields its
length.  Returns the Python return value and the updated logger state. -/
def markFragmentStart (a : AppArgs) (hk : HandlerKind) (fileContents : List Char)
    (st : LoggerState) : Bool × LoggerState :=
  if a.secure || strOptFalsy a.logFileName || !(hk == HandlerKind.fileH) then
    (false, st)
  else
    (true, { st with fragmentStart := some fileContents.length })

/-- `Logger.getFragment` (lines 352-372): seek to the marked offset, read
to end; clear the mark only when the text read is non-empty. -/
def getFragment (a : AppArgs) (hk : HandlerKind) (fileContents : List Char)
    (st : LoggerState) : Option (List Char) × LoggerState :=
  match st.fragmentStart with
  | none => (none, st)
  | some p =>
    if a.secure || strOptFalsy a.logFileName || !(hk == HandlerKind.fileH) then
      (none, st)
    else
      let fragment := fileContents.drop p
      if fragment.isEmpty then (some fragment, st)
      else (some fragment, { st with fragmentStart := none })

/-- Whether a `Logger._log` call activates the live log viewer
(lines 241-253): the `activateLogViewer` argument, forced off in secure
mode before being acted upon. -/
def logViewerActivation (a : AppArgs) (activateLogViewer : Bool) : Bool :=
  if a.secure then false else activateLogViewer

/-! ## Thread exception hook (`_threadExceptHook`, lines 497-504) -/

/-- A record as far as these claims observe it: its level and message. -/
structure LogRecord where
  level : Nat
  msg : String
deriving DecidableEq

/-- The records `Logger.exception` emits (lines 282-332): one record at the
classified level when that level passes the threshold, none otherwise. -/
def loggerExceptionRecords (threshold : Nat) (msg : String) (exc : PyExc) :
    List LogRecord :=
  let level := exceptionLevel exc
  if isEnabledFor threshold level then [⟨level, msg⟩] else []

/-- The argument object passed to `threading.excepthook`. -/
structure ThreadExcInfo where
  isSystemExit : Bool
  excValue : PyExc
  threadName : Option String

/-- `_threadExceptHook` (lines 497-504): `SystemExit` is ignored; otherwise
the exception is forwarded to `log.exception` with a message naming the
thread when one is attached. -/
def threadExceptHook (threshold : Nat) (info : ThreadExcInfo) : List LogRecord :=
  if info.isSystemExit then []
  else
    let msg :=
      match info.threadName with
      | some n => "Exception in thread " ++ n ++ ":\n"
      | none => ""
    loggerExceptionRecords threshold msg info.excValue

/-! ## File sink audible alerts (`FileHandler.handle`, lines 393-399, and
`shouldPlayErrorSound`, lines 177-186) -/

/-- `shouldPlayErrorSound`: test version, or the `playErrorSound` feature
flag (when config is initialized) equals 1. -/
def shouldPlayErrorSound (isTestVersion : Bool) (confPlayErrorSound : Option Nat) :
    Bool :=
  isTestVersion ||
    (match confPlayErrorSound with
     | some v => v == 1
     | none => false)

/-- The audible side effects of one `FileHandler.handle` call. -/
structure HandleEffects where
  blockingBeep : Bool
  errorSoundNotified : Bool
deriving DecidableEq

/-- `FileHandler.handle` (lines 393-399): CRITICAL-or-above beeps
(blocking `winsound.MessageBeep`); otherwise ERROR-or-above notifies the
error-sound extension point when `shouldPlayErrorSound()` holds. -/
def fileHandlerHandle (isTestVersion : Bool) (confPlayErrorSound : Option Nat)
    (levelno : Nat) : HandleEffects :=
  if Logger.CRITICAL ≤ levelno then
    { blockingBeep := true, errorSoundNotified := false }
  else if Logger.ERROR ≤ levelno ∧ shouldPlayErrorSound isTestVersion confPlayErrorSound = true then
    { blockingBeep := false, errorSoundNotified := true }
  else
    { blockingBeep := false, errorSoundNotified := false }

/-! ## Frame inspector (`isPathExternalToNVDA`, lines 70-88, and
`getCodePath`, lines 91-153) -/

/-- The environment `isPathExternalToNVDA` reads: `_NVDA_CODE_PATH` and
`NVDAState.WritePaths.configDir`. -/
structure Env where
  nvdaCodePath : String
  configDir : Option String

/-- `str.startswith`, modelled on the character list (Lean's own
`String.startsWith` is not kernel-reducible). -/
def strStartsWith (s pre : String) : Bool :=
  pre.toList.isPrefixOf s.toList

/-- Model of `ntpath.splitdrive(...)[1]` for drive-letter paths: strips a
leading `X:` drive.  (UNC prefixes are not modelled; no claim uses them.) -/
def splitDriveRest (p : String) : String :=
  match p.toList with
  | _ :: ':' :: rest => String.mk rest
  | _ => p

/-- Model of `ntpath.isabs`: after stripping the drive, the path starts
with a slash or backslash. -/
def isAbsPath (p : String) : Bool :=
  match (splitDriveRest p).toList with
  | [] => false
  | c :: _ => c == '\\' || c == '/'

/-- Model of `ntpath.normpath` restricted to separator normalization
(`/` becomes `\`); `.`/`..` collapsing is not modelled, no claim uses it. -/
def normPath (p : String) : String :=
  String.mk (p.toList.map (fun c => if c == '/' then '\\' else c))

/-- `isPathExternalToNVDA` (lines 70-88): the path names a file (does not
begin with `<`), is absolute, and is not under the NVDA code directory; or
it is under the user configuration directory (when one is set). -/
def isPathExternalToNVDA (env : Env) (path : String) : Bool :=
  (!(strStartsWith path "<")
      && isAbsPath path
      && !(strStartsWith (normPath path) (env.nvdaCodePath ++ "\\")))
    || (match env.configDir with
        | some d => strStartsWith path d
        | none => false)

/-- A Python function object, identified by the identity (`is`) of its code
object. -/
structure FuncObj where
  codeId : Nat
deriving DecidableEq

/-- A value found in a class `__dict__` under the function's name, as
`getCodePath`'s loop (lines 129-152) distinguishes it: a plain function, a
`classmethod` (whose `__func__` may or may not be a plain function), a
`property` (with optional getter/setter, `some f` meaning a plain function
`f`), or any other object with the given truthiness. -/
inductive Member where
  | funcM (f : FuncObj)
  | classMethodM (isFunc : Bool) (f : FuncObj)
  | propM (fget : Option FuncObj) (fset : Option FuncObj)
  | dataM (truthy : Bool)
deriving DecidableEq

/-- Python truthiness of a member (`if not member: continue`); function,
classmethod and property objects are always truthy. -/
def Member.truthy : Member → Bool
  | Member.dataM t => t
  | _ => true

/-- Whether the member is the frame's code, in one of the three forms the
loop accepts: standard method, class method, or property getter/setter. -/
def Member.matchesCode (m : Member) (fid : Nat) : Bool :=
  match m with
  | Member.funcM f => f.codeId == fid
  | Member.classMethodM isFunc f => isFunc && f.codeId == fid
  | Member.propM fget fset =>
    (match fget with
     | some f => f.codeId == fid
     | none => false)
    || (match fset with
        | some f => f.codeId == fid
        | none => false)
  | Member.dataM _ => false

/-- A Python class: its `__name__` and `__dict__`. -/
structure PyClass where
  name : String
  dict : List (String × Member)
deriving DecidableEq

/-- `cls.__dict__.get(name)`. -/
def dictGet (d : List (String × Member)) (k : String) : Option Member :=
  (d.find? (fun p => p.1 == k)).map (fun p => p.2)

/-- `hasattr(topCls, name)`, resolved through the class-side MRO.
(Metaclass attributes are not modelled: they are never plain functions
whose code is a frame's code, so they never change the resolved class.) -/
def mroHasAttr (mro : List PyClass) (k : String) : Bool :=
  mro.any (fun cls => (dictGet cls.dict k).isSome)

/-- The `for cls in topCls.__mro__` loop of `getCodePath` (lines 129-152):
skip classes not binding the name or binding it to a falsy value; take the
first class whose member is the frame's code (the `break` fires only when
the class name is itself truthy, i.e. non-empty). -/
def findClassName (mro : List PyClass) (funcName : String) (fid : Nat) : String :=
  match mro with
  | [] => ""
  | cls :: rest =>
    match dictGet cls.dict funcName with
    | none => findClassName rest funcName fid
    | some member =>
      if !member.truthy then findClassName rest funcName fid
      else
        let className := if member.matchesCode fid then cls.name else ""
        if className != "" then className
        else findClassName rest funcName fid

/-- A call-stack frame as `getCodePath` reads it: `f_code.co_filename`,
`f_globals` module name (`none` models the `KeyError` fallback),
`f_code.co_name`, the identity of `f_code`, `f_code.co_argcount`, and the
MRO of the first argument's type (the argument itself when it is a type);
relevant only when `argcount` is non-zero. -/
structure Frame where
  filename : String
  moduleName : Option String
  codeName : String
  codeId : Nat
  argcount : Nat
  arg0mro : List PyClass

/-- The module part of the codepath (lines 98-106): optional `external:`
prefix, then the module name, falling back to the file name. -/
def modulePath (env : Env) (f : Frame) : String :=
  (if isPathExternalToNVDA env f.filename then "external:" else "")
    ++ (match f.moduleName with
        | some n => n
        | none => f.filename)

/-- Python's `".".join(x for x in parts if x)`. -/
def dotJoin : List String → String
  | [] => ""
  | [x] => x
  | x :: xs => x ++ "." ++ dotJoin xs

/-- `getCodePath` (lines 91-153). -/
def getCodePath (env : Env) (f : Frame) : String :=
  let path := modulePath env f
  let funcName := if strStartsWith f.codeName "<" then "" else f.codeName
  let className :=
    if f.argcount != 0 then
      if mroHasAttr f.arg0mro funcName then
        findClassName f.arg0mro funcName f.codeId
      else ""
    else ""
  dotJoin (([path, className, funcName]).filter (fun x => x != ""))

/-- Spec-side resolution, following claim C6's words: the first class in
the MRO of the first argument's type under which the frame's code object is
found under the frame's function name (as instance method, class method or
property accessor); none for a free function (no positional parameter) or
when no class in the MRO defines that function as this frame's code. -/
def specMatchingClass (f : Frame) : Option PyClass :=
  if f.argcount != 0 then
    f.arg0mro.find? (fun cls =>
      match dictGet cls.dict f.codeName with
      | some m => m.matchesCode f.codeId
      | none => false)
  else none

/-- Embedding invariant on frames: classes produced by Python class
statements have non-empty names, and class dictionaries bind non-empty
attribute names. -/
def Frame.wfB (f : Frame) : Bool :=
  f.arg0mro.all (fun cls =>
    cls.name != "" && cls.dict.all (fun p => p.1 != ""))

/-! ## Claim C1 — exception classifier -/

/-- C1 (counterexample): a Windows error carrying the RPC
"call failed, did not execute" code is classified `DEBUGWARNING` by
`Logger.exception` although it is not among the claim's enumerated benign
codes, so the claim's "every other exception is logged at ERROR severity"
fails at this input. -/
theorem C1_counterexample :
    exceptionLevel (PyExc.windowsError RPC_S_CALL_FAILED_DNE) = Logger.DEBUGWARNING ∧
    specBenignExceptionC1 (PyExc.windowsError RPC_S_CALL_FAILED_DNE) = false ∧
    Logger.DEBUGWARNING ≠ Logger.ERROR := by
  decide

/-- C1 (amended): the severity chosen by `Logger.exception` is
`DEBUGWARNING` exactly when the exception is benign per the allow-lists
with the RPC call-failed-did-not-execute code included in the
Windows-error list; every other exception is classified `ERROR`. -/
theorem C1_exception_classifier_amended (exc : PyExc) :
    exceptionLevel exc =
      if specBenignExceptionAmended exc = true then Logger.DEBUGWARNING
      else Logger.ERROR := by
  cases exc <;> rfl

/-! ## Claim C2 — severity order -/

/-- C2 (counterexample): the claimed order places the input/output level
below `DEBUG`, but in the code `DEBUG = 10 < 12 = IO`. -/
theorem C2_counterexample : ¬ Logger.IOlvl < Logger.DEBUG := by
  decide

/-- C2 (amended): the severity levels form the total numeric order
`DEBUG < IO < DEBUGWARNING < INFO < WARNING < ERROR < CRITICAL < OFF`, and
with the threshold at `OFF` no emission level is enabled. -/
theorem C2_severity_order_amended :
    Logger.DEBUG < Logger.IOlvl ∧
    Logger.IOlvl < Logger.DEBUGWARNING ∧
    Logger.DEBUGWARNING < Logger.INFO ∧
    Logger.INFO < Logger.WARNING ∧
    Logger.WARNING < Logger.ERROR ∧
    Logger.ERROR < Logger.CRITICAL ∧
    Logger.CRITICAL < Logger.OFF ∧
    isEnabledFor Logger.OFF Logger.DEBUG = false ∧
    isEnabledFor Logger.OFF Logger.IOlvl = false ∧
    isEnabledFor Logger.OFF Logger.DEBUGWARNING = false ∧
    isEnabledFor Logger.OFF Logger.INFO = false ∧
    isEnabledFor Logger.OFF Logger.WARNING = false ∧
    isEnabledFor Logger.OFF Logger.ERROR = false ∧
    isEnabledFor Logger.OFF Logger.CRITICAL = false := by
  decide

/-! ## Claim C3 — forced level makes configuration a no-op -/

/-- C3: when any forced condition holds (secure mode, the debug-logging
flag, an explicit non-zero level override, or the no-logging flag),
`setLogLevelFromConfig` returns without changing any state. -/
theorem C3_forced_level_frame (a : AppArgs) (s : LogState)
    (h : a.secure = true ∨ a.debugLogging = true ∨ a.logLevel ≠ 0 ∨
      a.noLogging = true) :
    setLogLevelFromConfig a s = s := by
  have hf : isLogLevelForced a = true := by
    rcases h with h | h | h | h <;>
      simp [isLogLevelForced, h, bne_iff_ne]
  simp [setLogLevelFromConfig, hf]

/-- C3 (witness): with secure mode set, a configured `DEBUG` name changes
nothing. -/
theorem C3_witness :
    setLogLevelFromConfig ⟨true, false, 0, false, none⟩
        ⟨Logger.INFO, "DEBUG", false⟩ =
      ⟨Logger.INFO, "DEBUG", false⟩ :=
  C3_forced_level_frame _ _ (Or.inl rfl)

/-! ## Claim C5 — secure mode -/

/-- C5: with secure mode active, `markFragmentStart` returns false and
stores nothing, `getFragment` returns none and changes nothing, and no
`_log` call activates the live log viewer, whatever the other flags and
arguments are. -/
theorem C5_secure_mode (a : AppArgs) (hk : HandlerKind)
    (fileContents : List Char) (st : LoggerState) (alv : Bool)
    (h : a.secure = true) :
    markFragmentStart a hk fileContents st = (false, st) ∧
    getFragment a hk fileContents st = (none, st) ∧
    logViewerActivation a alv = false := by
  refine ⟨?_, ?_, ?_⟩
  · simp [markFragmentStart, h]
  · rcases st with ⟨fs⟩
    cases fs <;> simp [getFragment, h]
  · simp [logViewerActivation, h]

/-- C5 (witness): concrete secure-mode call with a file handler, a log file
name, a stored mark and an explicit viewer-activation request. -/
theorem C5_witness :
    markFragmentStart ⟨true, false, 0, false, some "nvda.log"⟩ HandlerKind.fileH
        ['a', 'b'] ⟨some 1⟩ = (false, ⟨some 1⟩) ∧
    getFragment ⟨true, false, 0, false, some "nvda.log"⟩ HandlerKind.fileH
        ['a', 'b'] ⟨some 1⟩ = (none, ⟨some 1⟩) ∧
    logViewerActivation ⟨true, false, 0, false, some "nvda.log"⟩ true = false :=
  C5_secure_mode _ _ _ _ _ rfl

/-! ## Claim C9 — audible alerts of the file sink -/

/-- C9 (counterexample): a CRITICAL record with alert-on-error enabled is
ERROR-or-above, yet the error-sound extension point is not notified (the
source's `elif` makes the two alerts exclusive); only the blocking beep
happens. -/
theorem C9_counterexample :
    shouldPlayErrorSound true none = true ∧
    Logger.ERROR ≤ Logger.CRITICAL ∧
    (fileHandlerHandle true none Logger.CRITICAL).errorSoundNotified = false ∧
    (fileHandlerHandle true none Logger.CRITICAL).blockingBeep = true := by
  decide

/-- C9 (amended): the error-sound extension point is notified exactly for
records at ERROR or above but below CRITICAL with alert-on-error enabled,
and the blocking system alert sound fires exactly for CRITICAL-or-above
records (which skip the fire-and-forget notification). -/
theorem C9_audible_alerts_amended (isTest : Bool) (conf : Option Nat)
    (levelno : Nat) :
    ((fileHandlerHandle isTest conf levelno).blockingBeep = true ↔
      Logger.CRITICAL ≤ levelno) ∧
    ((fileHandlerHandle isTest conf levelno).errorSoundNotified = true ↔
      (Logger.ERROR ≤ levelno ∧ levelno < Logger.CRITICAL ∧
        shouldPlayErrorSound isTest conf = true)) := by
  unfold fileHandlerHandle
  split_ifs with h1 h2 <;> simp_all <;> omega

set_option maxHeartbeats 1000000 in
/-- A level name outside the allowed set never resolves to a level in the
validation tuple of `setLogLevelFromConfig`. -/
theorem getLevelNum_not_allowed (name : String)
    (hmem : name ∉ allowedConfigNames) (level : Nat)
    (hlv : getLevelNum name = some level) :
    [Logger.DEBUG, Logger.IOlvl, Logger.DEBUGWARNING,
     Logger.INFO, Logger.OFF].contains level = false := by
  unfold getLevelNum at hlv
  split_ifs at hlv with h1 h2 h3 h4 h5 h6 h7 h8 h9 h10 h11 <;>
    first
      | (cases hlv <;> decide)
      | simp_all [allowedConfigNames]

/-- C7: in the non-forced state, a configured level name in the allowed set
sets the root threshold to that named level and leaves everything else
unchanged; any other name logs a warning, resets the threshold to INFO and
rewrites the configuration value to INFO's canonical name. -/
theorem C7_config_level_policy (a : AppArgs) (s : LogState)
    (h : isLogLevelForced a = false) :
    (s.configLoggingLevel ∈ allowedConfigNames →
      setLogLevelFromConfig a s =
        { s with rootLevel := (getLevelNum s.configLoggingLevel).getD Logger.INFO }) ∧
    (s.configLoggingLevel ∉ allowedConfigNames →
      setLogLevelFromConfig a s =
        { s with warned := true, rootLevel := Logger.INFO,
                 configLoggingLevel := "INFO" }) := by
  rcases s with ⟨rl, cfg, w⟩
  constructor
  · intro hmem
    simp only [allowedConfigNames, List.mem_cons, List.not_mem_nil, or_false] at hmem
    rcases hmem with rfl | rfl | rfl | rfl | rfl <;>
      simp [setLogLevelFromConfig, h, getLevelNum, Logger.DEBUG, Logger.IOlvl,
        Logger.DEBUGWARNING, Logger.INFO, Logger.OFF]
  · intro hmem
    have hna := getLevelNum_not_allowed cfg hmem
    simp only [setLogLevelFromConfig, h, Bool.false_eq_true, if_false]
    rcases hg : getLevelNum cfg with _ | level
    · rfl
    · simp only [hna level hg, Bool.false_eq_true, if_false]

/-- C7 (witness): in the non-forced state an unrecognized name is repaired
to INFO and the configuration value rewritten. -/
theorem C7_witness :
    setLogLevelFromConfig ⟨false, false, 0, false, none⟩
        ⟨Logger.INFO, "LOUD", false⟩ =
      { rootLevel := Logger.INFO, configLoggingLevel := "INFO", warned := true } :=
  (C7_config_level_policy ⟨false, false, 0, false, none⟩
      ⟨Logger.INFO, "LOUD", false⟩ rfl).2 (by decide)

/-! ## Claim C4 — fragment round-trip -/

/-- C4: after a successful `markFragmentStart` at end-of-file offset `P`,
`getFragment` on the file with text appended returns exactly the appended
text; it clears the mark when that text is non-empty, and with nothing
appended it returns the empty result and leaves the mark at `P`, so a
later call still reads from the same starting offset. -/
theorem C4_fragment_roundtrip (a : AppArgs) (hk : HandlerKind)
    (contents appended : List Char) (st : LoggerState)
    (h : (markFragmentStart a hk contents st).1 = true) :
    (getFragment a hk (contents ++ appended)
        (markFragmentStart a hk contents st).2).1 = some appended ∧
    (appended ≠ [] →
      (getFragment a hk (contents ++ appended)
          (markFragmentStart a hk contents st).2).2 = ⟨none⟩) ∧
    (appended = [] →
      (getFragment a hk (contents ++ appended)
          (markFragmentStart a hk contents st).2).2
          = (markFragmentStart a hk contents st).2 ∧
      (markFragmentStart a hk contents st).2.fragmentStart
          = some contents.length) := by
  by_cases hg :
      (a.secure || strOptFalsy a.logFileName || !(hk == HandlerKind.fileH)) = true
  · exfalso
    rw [markFragmentStart, if_pos hg] at h
    exact Bool.false_ne_true h
  · rw [markFragmentStart, if_neg hg]
    simp only [getFragment, if_neg hg, List.drop_left]
    rcases appended with _ | ⟨c, rest⟩
    · simp
    · simp

/-- C4 (witness): mark at offset 1 of a one-character file, append two
characters, read them back. -/
theorem C4_witness :
    (getFragment ⟨false, false, 0, false, some "nvda.log"⟩ HandlerKind.fileH
        (['a'] ++ ['b', 'c'])
        (markFragmentStart ⟨false, false, 0, false, some "nvda.log"⟩
            HandlerKind.fileH ['a'] ⟨none⟩).2).1 = some ['b', 'c'] ∧
    (['b', 'c'] ≠ ([] : List Char) →
      (getFragment ⟨false, false, 0, false, some "nvda.log"⟩ HandlerKind.fileH
          (['a'] ++ ['b', 'c'])
          (markFragmentStart ⟨false, false, 0, false, some "nvda.log"⟩
              HandlerKind.fileH ['a'] ⟨none⟩).2).2 = ⟨none⟩) ∧
    (['b', 'c'] = ([] : List Char) →
      (getFragment ⟨false, false, 0, false, some "nvda.log"⟩ HandlerKind.fileH
          (['a'] ++ ['b', 'c'])
          (markFragmentStart ⟨false, false, 0, false, some "nvda.log"⟩
              HandlerKind.fileH ['a'] ⟨none⟩).2).2
          = (markFragmentStart ⟨false, false, 0, false, some "nvda.log"⟩
              HandlerKind.fileH ['a'] ⟨none⟩).2 ∧
      (markFragmentStart ⟨false, false, 0, false, some "nvda.log"⟩
          HandlerKind.fileH ['a'] ⟨none⟩).2.fragmentStart
          = some (['a'] : List Char).length) :=
  C4_fragment_roundtrip ⟨false, false, 0, false, some "nvda.log"⟩
    HandlerKind.fileH ['a'] ['b', 'c'] ⟨none⟩ rfl

/-! ## Claim C8 — thread exception hook -/

/-- C8 (counterexample): an uncaught `CallCancelled` in a worker thread is
routed through `Logger.exception`, so the single record it produces is at
`DEBUGWARNING`, not at `ERROR` as the claim states. -/
theorem C8_counterexample :
    threadExceptHook Logger.DEBUG ⟨false, PyExc.callCancelled, some "Thread-1"⟩ =
      [⟨Logger.DEBUGWARNING, "Exception in thread Thread-1:\n"⟩] ∧
    Logger.DEBUGWARNING ≠ Logger.ERROR := by
  exact ⟨rfl, by decide⟩

/-- C8 (amended): after hook installation, an uncaught `SystemExit` in a
worker thread produces zero records; any other uncaught exception produces
exactly one record naming the failing thread, at the classifier's level —
`ERROR` unless the exception is in the benign allow-list, in which case
`DEBUGWARNING` — provided that level passes the threshold. -/
theorem C8_thread_hook_amended (threshold : Nat) (info : ThreadExcInfo)
    (n : String) (hname : info.threadName = some n) :
    (info.isSystemExit = true → threadExceptHook threshold info = []) ∧
    (info.isSystemExit = false →
      isEnabledFor threshold (exceptionLevel info.excValue) = true →
      threadExceptHook threshold info =
        [⟨exceptionLevel info.excValue, "Exception in thread " ++ n ++ ":\n"⟩]) ∧
    (exceptionLevel info.excValue = Logger.ERROR ∨
      exceptionLevel info.excValue = Logger.DEBUGWARNING) := by
  refine ⟨?_, ?_, ?_⟩
  · intro hexit
    simp [threadExceptHook, hexit]
  · intro hexit hen
    simp [threadExceptHook, hexit, hname, loggerExceptionRecords, hen]
  · unfold exceptionLevel
    split_ifs with hc
    · exact Or.inr rfl
    · exact Or.inl rfl

/-- C8 (witness): an unclassified exception in thread `worker`, with the
threshold at DEBUG, yields one ERROR record naming the thread. -/
theorem C8_witness :
    ((false : Bool) = true →
      threadExceptHook Logger.DEBUG
        ⟨false, PyExc.otherExc "RuntimeError", some "worker"⟩ = []) ∧
    ((false : Bool) = false →
      isEnabledFor Logger.DEBUG
          (exceptionLevel (PyExc.otherExc "RuntimeError")) = true →
      threadExceptHook Logger.DEBUG
          ⟨false, PyExc.otherExc "RuntimeError", some "worker"⟩ =
        [⟨exceptionLevel (PyExc.otherExc "RuntimeError"),
          "Exception in thread " ++ "worker" ++ ":\n"⟩]) ∧
    (exceptionLevel (PyExc.otherExc "RuntimeError") = Logger.ERROR ∨
      exceptionLevel (PyExc.otherExc "RuntimeError") = Logger.DEBUGWARNING) :=
  C8_thread_hook_amended Logger.DEBUG
    ⟨false, PyExc.otherExc "RuntimeError", some "worker"⟩ "worker" rfl

/-! ## Claims C6 and C10 — codepath resolution -/

/-- A member that matches the frame's code is a function, classmethod or
property, hence truthy. -/
theorem Member.truthy_of_matchesCode (m : Member) (fid : Nat)
    (h : m.matchesCode fid = true) : m.truthy = true := by
  cases m <;> simp_all [Member.truthy, Member.matchesCode]

/-- The class-name loop returns the name of the first MRO class binding the
function name to the frame's code, given that class names are non-empty. -/
theorem findClassName_eq_find (mro : List PyClass) (funcName : String)
    (fid : Nat) (hwf : ∀ cls ∈ mro, cls.name ≠ "") :
    findClassName mro funcName fid =
      match mro.find? (fun cls =>
        match dictGet cls.dict funcName with
        | some m => m.matchesCode fid
        | none => false) with
      | some cls => cls.name
      | none => "" := by
  induction mro with
  | nil => rfl
  | cons cls rest ih =>
    have hrest : ∀ c ∈ rest, c.name ≠ "" := fun c hc => hwf c (List.mem_cons_of_mem _ hc)
    rcases hd : dictGet cls.dict funcName with _ | m
    · simp only [findClassName, hd, List.find?_cons, ih hrest]
    · rcases ht : m.truthy with _ | _
      · have hm : m.matchesCode fid = false := by
          rcases h : m.matchesCode fid with _ | _
          · rfl
          · exact absurd (Member.truthy_of_matchesCode m fid h) (by simp [ht])
        simp only [findClassName, hd, ht, Bool.not_false, if_true, List.find?_cons,
          hm, ih hrest]
      · rcases hm : m.matchesCode fid with _ | _
        · simp only [findClassName, hd, ht, Bool.not_true, Bool.false_eq_true,
            if_false, hm, bne_self_eq_false, List.find?_cons, ih hrest]
        · have hne : (cls.name != "") = true :=
            bne_iff_ne.mpr (hwf cls (List.mem_cons_self _ _))
          simp only [findClassName, hd, ht, Bool.not_true, Bool.false_eq_true,
            if_false, hm, hne, if_true, List.find?_cons]

/-- A dictionary all of whose keys are non-empty has no entry for the empty
attribute name (which is what the stripped name of a `<...>` code object
looks up). -/
theorem dictGet_empty_key (d : List (String × Member))
    (h : d.all (fun p => p.1 != "") = true) : dictGet d "" = none := by
  induction d with
  | nil => rfl
  | cons p rest ih =>
    simp only [List.all_cons, Bool.and_eq_true] at h
    simp only [dictGet, List.find?_cons]
    have hp : (p.1 == "") = false := by
      rcases hq : p.1 == "" with _ | _
      · rfl
      · exact absurd hq (by simpa using h.1)
    simp only [hp, Bool.false_eq_true, if_false]
    simpa [dictGet] using ih h.2

/-- Non-empty class names, extracted from the frame invariant. -/
theorem Frame.wf_names (f : Frame) (hwf : f.wfB = true) :
    ∀ cls ∈ f.arg0mro, cls.name ≠ "" := by
  intro cls hc
  simp only [Frame.wfB, List.all_eq_true] at hwf
  have := hwf cls hc
  simp only [Bool.and_eq_true, bne_iff_ne] at this
  exact this.1

/-- Non-empty dictionary keys, extracted from the frame invariant. -/
theorem Frame.wf_keys (f : Frame) (hwf : f.wfB = true) :
    ∀ cls ∈ f.arg0mro, cls.dict.all (fun p => p.1 != "") = true := by
  intro cls hc
  simp only [Frame.wfB, List.all_eq_true] at hwf
  have := hwf cls hc
  simp only [Bool.and_eq_true] at this
  exact this.2

/-- `dotJoin` on two non-empty parts. -/
theorem dotJoin_two (x z : String) (hx : x ≠ "") (hz : z ≠ "") :
    dotJoin (([x, "", z]).filter (fun s => s != "")) = x ++ "." ++ z := by
  have hx' : (x != "") = true := bne_iff_ne.mpr hx
  have hz' : (z != "") = true := bne_iff_ne.mpr hz
  simp only [List.filter, hx', hz', bne_self_eq_false, dotJoin]

/-- `dotJoin` on three non-empty parts. -/
theorem dotJoin_three (x y z : String) (hx : x ≠ "") (hy : y ≠ "") (hz : z ≠ "") :
    dotJoin (([x, y, z]).filter (fun s => s != "")) = x ++ "." ++ y ++ "." ++ z := by
  have hx' : (x != "") = true := bne_iff_ne.mpr hx
  have hy' : (y != "") = true := bne_iff_ne.mpr hy
  have hz' : (z != "") = true := bne_iff_ne.mpr hz
  simp only [List.filter, hx', hy', hz', dotJoin]
  simp [String.append_assoc]

/-- C6: a call made from inside a method (the frame's code found under the
frame's function name in the first argument's MRO, as instance method,
class method or property accessor) resolves to `module.Class.method` with
the first matching class in MRO order; a free function, or a call whose
first argument's type does not define that function, resolves to
`module.function` with no class segment. -/
theorem C6_codepath_class_resolution (env : Env) (f : Frame)
    (hwf : f.wfB = true)
    (hlt : strStartsWith f.codeName "<" = false)
    (hfn : f.codeName ≠ "")
    (hmod : modulePath env f ≠ "") :
    (∀ cls : PyClass, specMatchingClass f = some cls →
      getCodePath env f =
        modulePath env f ++ "." ++ cls.name ++ "." ++ f.codeName) ∧
    (specMatchingClass f = none →
      getCodePath env f = modulePath env f ++ "." ++ f.codeName) := by
  have hnames := Frame.wf_names f hwf
  constructor
  · intro cls hcls
    unfold specMatchingClass at hcls
    by_cases hac : (f.argcount != 0) = true
    · rw [if_pos hac] at hcls
      have hpred := List.find?_some hcls
      have hmem := List.mem_of_find?_eq_some hcls
      have hattr : mroHasAttr f.arg0mro f.codeName = true := by
        rcases hd : dictGet cls.dict f.codeName with _ | m
        · rw [hd] at hpred
          exact absurd hpred (by simp)
        · exact List.any_eq_true.mpr ⟨cls, hmem, by simp [hd]⟩
      have hfind := findClassName_eq_find f.arg0mro f.codeName f.codeId hnames
      rw [hcls] at hfind
      unfold getCodePath
      simp only [hlt, Bool.false_eq_true, if_false, hac, if_true, hattr, hfind]
      exact dotJoin_three _ _ _ hmod (hnames cls hmem) hfn
    · rw [if_neg hac] at hcls
      exact Option.noConfusion hcls
  · intro hnone
    unfold specMatchingClass at hnone
    unfold getCodePath
    simp only [hlt, Bool.false_eq_true, if_false]
    by_cases hac : (f.argcount != 0) = true
    · rw [if_pos hac] at hnone
      have hfind := findClassName_eq_find f.arg0mro f.codeName f.codeId hnames
      rw [hnone] at hfind
      by_cases hattr : mroHasAttr f.arg0mro f.codeName = true
      · simp only [hac, if_true, hattr, hfind]
        exact dotJoin_two _ _ hmod hfn
      · simp only [hac, if_true, Bool.not_eq_true] at *
        simp only [hattr, Bool.false_eq_true, if_false, hac, if_true]
        exact dotJoin_two _ _ hmod hfn
    · simp only [Bool.not_eq_true] at hac
      simp only [hac, Bool.false_eq_true, if_false]
      exact dotJoin_two _ _ hmod hfn

/-- `dotJoin` keeps only the module part when class and function parts are
empty. -/
theorem dotJoin_one (x : String) :
    dotJoin (([x, "", ""]).filter (fun s => s != "")) = x := by
  by_cases hx : x = ""
  · subst hx
    rfl
  · have hx' : (x != "") = true := bne_iff_ne.mpr hx
    simp [List.filter, hx', dotJoin]

/-- C10: a frame whose code-object name starts with `<` (module-level code,
lambdas) yields a codepath with no function segment and no class segment:
just the possibly `external:`-prefixed module path. -/
theorem C10_angle_name_codepath (env : Env) (f : Frame)
    (hwf : f.wfB = true)
    (hlt : strStartsWith f.codeName "<" = true) :
    getCodePath env f = modulePath env f := by
  unfold getCodePath
  simp only [hlt, if_true]
  have hattr : mroHasAttr f.arg0mro "" = false := by
    unfold mroHasAttr
    rw [List.any_eq_false]
    intro cls hc
    rw [dictGet_empty_key cls.dict (Frame.wf_keys f hwf cls hc)]
    simp
  by_cases hac : (f.argcount != 0) = true
  · simp only [hac, if_true, hattr, Bool.false_eq_true, if_false]
    exact dotJoin_one _
  · simp only [Bool.not_eq_true] at hac
    simp only [hac, Bool.false_eq_true, if_false]
    exact dotJoin_one _

/-- C6 (witness): a method call frame resolves through the receiver's MRO
to `module.Class.method`, and stripping the class from the receiver makes
it resolve to `module.function`. -/
theorem C6_witness :
    getCodePath ⟨"C:\x5cnvda", none⟩
        ⟨"mod.py", some "mymod", "doThing", 7, 1,
          [⟨"Widget", [("doThing", Member.funcM ⟨7⟩)]⟩]⟩ =
      "mymod.Widget.doThing" :=
  ((C6_codepath_class_resolution ⟨"C:\x5cnvda", none⟩
      ⟨"mod.py", some "mymod", "doThing", 7, 1,
        [⟨"Widget", [("doThing", Member.funcM ⟨7⟩)]⟩]⟩
      (by decide) (by decide) (by decide) (by decide)).1
    ⟨"Widget", [("doThing", Member.funcM ⟨7⟩)]⟩ (by decide)).trans (by decide)

/-- C10 (witness): a lambda frame whose receiver's class defines an
unrelated method resolves to just the module path. -/
theorem C10_witness :
    getCodePath ⟨"C:\x5cnvda", none⟩
        ⟨"mod.py", some "mymod", "<lambda>", 5, 1,
          [⟨"Widget", [("doThing", Member.funcM ⟨5⟩)]⟩]⟩ = "mymod" :=
  (C10_angle_name_codepath ⟨"C:\x5cnvda", none⟩
      ⟨"mod.py", some "mymod", "<lambda>", 5, 1,
        [⟨"Widget", [("doThing", Member.funcM ⟨5⟩)]⟩]⟩
      (by decide) (by decide)).trans (by decide)
